import Mathlib

/-!
Verification development for the systemd collector of a metrics exporter
(`collector/systemd_linux.go`).  The collector is embedded shallowly: the
external dbus client is modelled by an environment `DbusEnv` recording the
outcome of each external call, and the observable behaviour of an `Update`
run is a trace of events (connection open/close, metric emission) together
with the returned result.  Gauge values are only ever the float literals
0.0 and 1.0, which are exact, so they are modelled as rationals.
-/

namespace NodeExporter.Systemd

/-- Model of `prometheus.Desc`: a metric descriptor (fully qualified name,
help text, variable label names). -/
structure Desc where
  fqName : String
  help : String
  variableLabels : List String
  deriving DecidableEq, Repr

/-- Model of `prometheus.ValueType`; the collector only uses `GaugeValue`. -/
inductive ValueType where
  | gauge
  | counter
  | untyped
  deriving DecidableEq, Repr

/-- Model of a constant metric built by `prometheus.MustNewConstMetric`:
descriptor, value type, value, and label values in order. -/
structure Metric where
  desc : Desc
  vtype : ValueType
  value : Rat
  labelValues : List String
  deriving DecidableEq, Repr

/-- Model of `dbus.UnitStatus`, restricted to the two fields the collector
reads (`Name` and `ActiveState`). -/
structure UnitStatus where
  Name : String
  ActiveState : String
  deriving DecidableEq, Repr

/-- The collector struct `systemdCollector`: its only fields are the two
metric descriptors. -/
structure systemdCollector where
  unitDesc : Desc
  systemRunningDesc : Desc
  deriving DecidableEq, Repr

/-- `var unitStatesName = []string{...}` from the source. -/
def unitStatesName : List String :=
  ["active", "activating", "deactivating", "inactive", "failed"]

/-- Observable events of an `Update` run: opening a dbus connection
(identified by which `dbus.New()` call produced it), closing it, and
sending a metric on the channel `ch`. -/
inductive Event where
  | openConn (id : Nat)
  | closeConn (id : Nat)
  | emit (m : Metric)
  deriving DecidableEq, Repr

/-- Environment: the outcomes of the four external dbus calls an `Update`
run can make, in program order: the first `dbus.New()`, `conn.ListUnits()`,
the second `dbus.New()`, and `conn.GetManagerProperty("SystemState")`. -/
structure DbusEnv where
  newConnUnits : Except String Unit
  listUnitsResult : Except String (List UnitStatus)
  newConnState : Except String Unit
  systemStateResult : Except String String

/-- `listUnits`: open a dbus connection, list units, close the connection
(the source calls `conn.Close()` before inspecting the query error), and
return the query result.  Returns the event trace and the result. -/
def listUnits (env : DbusEnv) : List Event × Except String (List UnitStatus) :=
  match env.newConnUnits with
  | Except.error e =>
      ([], Except.error ("couldn\x27t get dbus connection: " ++ e))
  | Except.ok _ =>
      match env.listUnitsResult with
      | Except.ok units =>
          ([Event.openConn 0, Event.closeConn 0], Except.ok units)
      | Except.error e =>
          ([Event.openConn 0, Event.closeConn 0], Except.error e)

/-- `getSystemState`: open a fresh dbus connection, read the manager
property `SystemState`, close the connection, return the result. -/
def getSystemState (env : DbusEnv) : List Event × Except String String :=
  match env.newConnState with
  | Except.error e =>
      ([], Except.error ("couldn\x27t get dbus connection: " ++ e))
  | Except.ok _ =>
      match env.systemStateResult with
      | Except.ok s =>
          ([Event.openConn 1, Event.closeConn 1], Except.ok s)
      | Except.error e =>
          ([Event.openConn 1, Event.closeConn 1], Except.error e)

/-- `collectUnitStatusMetrics`: for each unit, for each known state name,
emit a gauge sample valued 1 when the state name equals the unit's
`ActiveState` and 0 otherwise, labelled with the unit name and state. -/
def collectUnitStatusMetrics (c : systemdCollector) (units : List UnitStatus) :
    List Event :=
  units.flatMap fun unit =>
    unitStatesName.map fun stateName =>
      let isActive : Rat := if stateName = unit.ActiveState then 1 else 0
      Event.emit ⟨c.unitDesc, ValueType.gauge, isActive, [unit.Name, stateName]⟩

/-- `collectSystemState`: emit one unlabelled gauge sample valued 1 when
the raw system state string equals the quoted literal `"running"`
(backquote-quoted in Go, i.e. the nine characters including the two
double quotes), and 0 otherwise. -/
def collectSystemState (c : systemdCollector) (systemState : String) :
    List Event :=
  let isSystemRunning : Rat := if systemState = "\x22running\x22" then 1 else 0
  [Event.emit ⟨c.systemRunningDesc, ValueType.gauge, isSystemRunning, []⟩]

/-- `Update`: list units (abort with a wrapped units-stage error on
failure), emit the unit-state samples, read the system state (abort with a
wrapped system-state-stage error on failure), emit the system-running
sample.  Returns the collector after the call (the method never assigns to
its receiver), the event trace, and the result. -/
def Update (c : systemdCollector) (env : DbusEnv) :
    systemdCollector × List Event × Except String Unit :=
  let lu := listUnits env
  match lu.2 with
  | Except.error e =>
      (c, lu.1, Except.error ("couldn\x27t get units states: " ++ e))
  | Except.ok units =>
      let unitEvents := collectUnitStatusMetrics c units
      let gs := getSystemState env
      match gs.2 with
      | Except.error e =>
          (c, lu.1 ++ unitEvents ++ gs.1,
            Except.error ("couldn\x27t get system state: " ++ e))
      | Except.ok systemState =>
          (c, lu.1 ++ unitEvents ++ gs.1 ++ collectSystemState c systemState,
            Except.ok ())

/-- The metric samples sent on the channel during a trace, in order. -/
def emits (t : List Event) : List Metric :=
  t.filterMap fun e =>
    match e with
    | Event.emit m => some m
    | _ => none

/-- Whether an event is a connection open or close. -/
def isConnEvent : Event → Bool
  | Event.openConn _ => true
  | Event.closeConn _ => true
  | _ => false

/-- The connection open/close events of a trace, in order. -/
def connTrace (t : List Event) : List Event := t.filter isConnEvent

/-- Whether an event emits a sample of value 1. -/
def hasValueOne : Event → Bool
  | Event.emit m => decide (m.value = 1)
  | _ => false

/-- Example descriptor for the unit-state family, as built by
`NewSystemdCollector`. -/
def descUnit : Desc :=
  ⟨"node_systemd_unit_state", "Systemd unit", ["name", "state"]⟩

/-- Example descriptor for the system-running family. -/
def descRunning : Desc :=
  ⟨"node_systemd_system_running", "Whether the system is operational", []⟩

/-- Example collector used to instantiate theorems on concrete inputs. -/
def cEx : systemdCollector := ⟨descUnit, descRunning⟩

/-- Example unit in a known state. -/
def sshdUnit : UnitStatus := ⟨"sshd.service", "active"⟩

/-- Example unit in another known state. -/
def cronUnit : UnitStatus := ⟨"cron.service", "failed"⟩

/-- Example environment where every external call succeeds. -/
def envOk : DbusEnv :=
  ⟨Except.ok (), Except.ok [sshdUnit, cronUnit], Except.ok (),
    Except.ok "\x22running\x22"⟩

/-- Example environment where the first connection open fails. -/
def envListConnFail : DbusEnv :=
  ⟨Except.error "connection refused", Except.ok [], Except.ok (),
    Except.ok "\x22running\x22"⟩

/-- Example environment where unit listing succeeds but the second
connection open fails. -/
def envStateFail : DbusEnv :=
  ⟨Except.ok (), Except.ok [sshdUnit, cronUnit],
    Except.error "connection refused", Except.ok "degraded"⟩

/-- Example environment with an empty unit list and a successful
system-state read. -/
def envEmpty : DbusEnv :=
  ⟨Except.ok (), Except.ok [], Except.ok (), Except.ok "\x22running\x22"⟩

theorem collectUnitStatusMetrics_cons (c : systemdCollector) (u : UnitStatus)
    (us : List UnitStatus) :
    collectUnitStatusMetrics c (u :: us) =
      collectUnitStatusMetrics c [u] ++ collectUnitStatusMetrics c us := by
  simp [collectUnitStatusMetrics]

theorem emits_append (a b : List Event) : emits (a ++ b) = emits a ++ emits b := by
  simp [emits]

theorem connTrace_append (a b : List Event) :
    connTrace (a ++ b) = connTrace a ++ connTrace b := by
  simp [connTrace]

theorem connTrace_collectUnitStatusMetrics (c : systemdCollector)
    (units : List UnitStatus) :
    connTrace (collectUnitStatusMetrics c units) = [] := by
  induction units with
  | nil => rfl
  | cons u us ih => rw [collectUnitStatusMetrics_cons, connTrace_append, ih]; rfl

theorem connTrace_collectSystemState (c : systemdCollector) (s : String) :
    connTrace (collectSystemState c s) = [] := rfl

theorem emits_collectUnitStatusMetrics_length (c : systemdCollector)
    (units : List UnitStatus) :
    (emits (collectUnitStatusMetrics c units)).length = 5 * units.length := by
  induction units with
  | nil => rfl
  | cons u us ih =>
      rw [collectUnitStatusMetrics_cons, emits_append, List.length_append, ih]
      have h5 : (emits (collectUnitStatusMetrics c [u])).length = 5 := rfl
      rw [h5, List.length_cons]
      ring

theorem collectUnitStatusMetrics_eq_flatMap (c : systemdCollector)
    (units : List UnitStatus) :
    collectUnitStatusMetrics c units =
      units.flatMap fun u => collectUnitStatusMetrics c [u] := by
  induction units with
  | nil => rfl
  | cons u us ih => rw [collectUnitStatusMetrics_cons, ih]; simp

theorem emits_unit_block (c : systemdCollector) (u : UnitStatus) :
    emits (collectUnitStatusMetrics c [u]) =
      [⟨c.unitDesc, ValueType.gauge,
          if "active" = u.ActiveState then 1 else 0, [u.Name, "active"]⟩,
       ⟨c.unitDesc, ValueType.gauge,
          if "activating" = u.ActiveState then 1 else 0, [u.Name, "activating"]⟩,
       ⟨c.unitDesc, ValueType.gauge,
          if "deactivating" = u.ActiveState then 1 else 0, [u.Name, "deactivating"]⟩,
       ⟨c.unitDesc, ValueType.gauge,
          if "inactive" = u.ActiveState then 1 else 0, [u.Name, "inactive"]⟩,
       ⟨c.unitDesc, ValueType.gauge,
          if "failed" = u.ActiveState then 1 else 0, [u.Name, "failed"]⟩] := rfl

theorem emits_connPair (i : Nat) :
    emits [Event.openConn i, Event.closeConn i] = [] := rfl

/-- Claim C1: for every unit in the listed snapshot, Update emits exactly
five unit-state samples for it, one per known state name in declared
order, each valued 1 exactly when the unit state equals that state name;
when the unit state is one of the known names, exactly one of the five
samples has value 1. -/
theorem C1_unit_one_hot (c : systemdCollector) (env : DbusEnv)
    (units : List UnitStatus) (u : UnitStatus)
    (hconn : env.newConnUnits = Except.ok ())
    (hlist : env.listUnitsResult = Except.ok units)
    (hu : u ∈ units) :
    (∃ rest, (Update c env).2.1 =
      [Event.openConn 0, Event.closeConn 0] ++
        collectUnitStatusMetrics c units ++ rest) ∧
    collectUnitStatusMetrics c units =
      units.flatMap (fun v => collectUnitStatusMetrics c [v]) ∧
    (collectUnitStatusMetrics c [u]).length = 5 ∧
    collectUnitStatusMetrics c [u] =
      unitStatesName.map (fun stateName =>
        Event.emit ⟨c.unitDesc, ValueType.gauge,
          if stateName = u.ActiveState then (1 : Rat) else 0,
          [u.Name, stateName]⟩) ∧
    (u.ActiveState ∈ unitStatesName →
      (collectUnitStatusMetrics c [u]).countP hasValueOne = 1) := by
  refine ⟨?_, collectUnitStatusMetrics_eq_flatMap c units, rfl, rfl, ?_⟩
  · obtain ⟨nc1, lr, nc2, sr⟩ := env
    simp only at hconn hlist
    subst hconn hlist
    cases nc2 with
    | error e => exact ⟨[], by simp [Update, listUnits, getSystemState]⟩
    | ok u2 =>
      cases sr with
      | error e =>
          exact ⟨[Event.openConn 1, Event.closeConn 1],
            by simp [Update, listUnits, getSystemState]⟩
      | ok s =>
          exact ⟨[Event.openConn 1, Event.closeConn 1] ++ collectSystemState c s,
            by simp [Update, listUnits, getSystemState]⟩
  · intro hk
    simp only [unitStatesName, List.mem_cons, List.not_mem_nil, or_false] at hk
    rcases hk with h | h | h | h | h <;>
      simp [collectUnitStatusMetrics, unitStatesName, hasValueOne,
        List.countP_cons, h]

/-- Claim C3: if unit listing fails, through the connection open or the
query itself, Update emits no samples of either family and returns an
error whose message begins with the units-stage text. -/
theorem C3_list_failure_no_samples (c : systemdCollector) (env : DbusEnv)
    (h : (∃ e, env.newConnUnits = Except.error e) ∨
         (env.newConnUnits = Except.ok () ∧
          ∃ e, env.listUnitsResult = Except.error e)) :
    emits (Update c env).2.1 = [] ∧
    ∃ msg, (Update c env).2.2 =
      Except.error ("couldn\x27t get units states: " ++ msg) := by
  rcases h with ⟨e, he⟩ | ⟨hok, e, he⟩
  · constructor
    · simp [Update, listUnits, he, emits]
    · exact ⟨"couldn\x27t get dbus connection: " ++ e,
        by simp [Update, listUnits, he]⟩
  · constructor
    · simp [Update, listUnits, hok, he, emits]
    · exact ⟨e, by simp [Update, listUnits, hok, he]⟩

/-- Claim C2: the system-running sample has value 1 exactly when the raw
manager property string is the 9-character literal of `running` wrapped in
two double-quote characters; any other string, in particular the unquoted
token `running`, yields value 0. -/
theorem C2_system_running_quoted_literal (c : systemdCollector) (s : String) :
    (∃ v : Rat,
      collectSystemState c s =
        [Event.emit ⟨c.systemRunningDesc, ValueType.gauge, v, []⟩] ∧
      (v = 1 ↔ s = "\x22running\x22") ∧ (v = 1 ∨ v = 0)) ∧
    ("\x22running\x22" : String).length = 9 ∧
    collectSystemState c "running" =
      [Event.emit ⟨c.systemRunningDesc, ValueType.gauge, 0, []⟩] := by
  refine ⟨⟨if s = "\x22running\x22" then 1 else 0, rfl, ?_, ?_⟩, by decide, ?_⟩
  · by_cases h : s = "\x22running\x22" <;> simp [h]
  · by_cases h : s = "\x22running\x22" <;> simp [h]
  · simp [collectSystemState]

/-- Claim C7: each of the two queries opens its own fresh connection
(distinct identifiers 0 and 1) and closes it immediately after the query
completes, whether the query succeeds or fails; the connection events of
any Update run take one of three shapes, in none of which a connection is
held across both queries. -/
theorem C7_scoped_connections (c : systemdCollector) (env : DbusEnv) :
    (env.newConnUnits = Except.ok () →
      (listUnits env).1 = [Event.openConn 0, Event.closeConn 0]) ∧
    (env.newConnUnits ≠ Except.ok () → (listUnits env).1 = []) ∧
    (env.newConnState = Except.ok () →
      (getSystemState env).1 = [Event.openConn 1, Event.closeConn 1]) ∧
    (env.newConnState ≠ Except.ok () → (getSystemState env).1 = []) ∧
    (connTrace (Update c env).2.1 = [] ∨
     connTrace (Update c env).2.1 = [Event.openConn 0, Event.closeConn 0] ∨
     connTrace (Update c env).2.1 =
       [Event.openConn 0, Event.closeConn 0, Event.openConn 1, Event.closeConn 1]) := by
  obtain ⟨nc1, lr, nc2, sr⟩ := env
  refine ⟨?_, ?_, ?_, ?_, ?_⟩
  · intro h
    subst h
    cases lr <;> rfl
  · intro h
    cases nc1 with
    | error e => rfl
    | ok u => cases u; exact absurd rfl h
  · intro h
    subst h
    cases sr <;> rfl
  · intro h
    cases nc2 with
    | error e => rfl
    | ok u => cases u; exact absurd rfl h
  · cases nc1 with
    | error e => exact Or.inl rfl
    | ok u =>
      cases lr with
      | error e => exact Or.inr (Or.inl rfl)
      | ok units =>
        cases nc2 with
        | error e =>
            refine Or.inr (Or.inl ?_)
            simp only [Update, listUnits, getSystemState]
            rw [connTrace_append, connTrace_append,
              connTrace_collectUnitStatusMetrics]
            rfl
        | ok u2 =>
          cases sr with
          | error e =>
              refine Or.inr (Or.inr ?_)
              simp only [Update, listUnits, getSystemState]
              rw [connTrace_append, connTrace_append,
                connTrace_collectUnitStatusMetrics]
              rfl
          | ok s =>
              refine Or.inr (Or.inr ?_)
              simp only [Update, listUnits, getSystemState]
              rw [connTrace_append, connTrace_append, connTrace_append,
                connTrace_collectUnitStatusMetrics, connTrace_collectSystemState]
              rfl

/-- Claim C8: Update mutates no collector state: the collector value it
returns, and in particular both descriptor fields, are identical to the
input collector on every success and failure path. -/
theorem C8_no_state_mutation (c : systemdCollector) (env : DbusEnv) :
    (Update c env).1 = c ∧ (Update c env).1.unitDesc = c.unitDesc ∧
    (Update c env).1.systemRunningDesc = c.systemRunningDesc := by
  obtain ⟨nc1, lr, nc2, sr⟩ := env
  cases nc1 <;> cases lr <;> cases nc2 <;> cases sr <;>
    simp [Update, listUnits, getSystemState]

/-- Claim C4: if unit listing succeeds but the system-state read fails,
Update emits exactly the unit-state samples, 5 per listed unit, retracts
none of them, emits no system-running sample (every emitted sample is of
the unit family: unit descriptor and two label values), and returns an
error whose message begins with the system-state-stage text. -/
theorem C4_state_failure_keeps_unit_samples (c : systemdCollector)
    (env : DbusEnv) (units : List UnitStatus)
    (h1 : env.newConnUnits = Except.ok ())
    (h2 : env.listUnitsResult = Except.ok units)
    (h3 : (∃ e, env.newConnState = Except.error e) ∨
          (env.newConnState = Except.ok () ∧
           ∃ e, env.systemStateResult = Except.error e)) :
    emits (Update c env).2.1 = emits (collectUnitStatusMetrics c units) ∧
    (emits (Update c env).2.1).length = 5 * units.length ∧
    ((emits (Update c env).2.1).all fun m =>
      decide (m.desc = c.unitDesc ∧ m.labelValues.length = 2)) = true ∧
    ∃ msg, (Update c env).2.2 =
      Except.error ("couldn\x27t get system state: " ++ msg) := by
  have hfirst : emits (Update c env).2.1 =
      emits (collectUnitStatusMetrics c units) := by
    rcases h3 with ⟨e, he⟩ | ⟨hok, e, he⟩ <;>
      simp [Update, listUnits, getSystemState, h1, h2, he, emits_append,
        emits_connPair] <;>
      simp [*, emits]
  have hall : ∀ us : List UnitStatus,
      ((emits (collectUnitStatusMetrics c us)).all fun m =>
        decide (m.desc = c.unitDesc ∧ m.labelValues.length = 2)) = true := by
    intro us
    induction us with
    | nil => rfl
    | cons v vs ih =>
        rw [collectUnitStatusMetrics_cons, emits_append, List.all_append, ih,
          emits_unit_block]
        simp
  refine ⟨hfirst, ?_, ?_, ?_⟩
  · rw [hfirst, emits_collectUnitStatusMetrics_length]
  · rw [hfirst]; exact hall units
  · rcases h3 with ⟨e, he⟩ | ⟨hok, e, he⟩
    · exact ⟨"couldn\x27t get dbus connection: " ++ e,
        by simp [Update, listUnits, getSystemState, h1, h2, he]⟩
    · exact ⟨e, by simp [Update, listUnits, getSystemState, h1, h2, hok, he]⟩

/-- Claim C5: a unit whose live state string is none of the five known
state names has all five of its emitted unit-state samples valued 0. -/
theorem C5_unknown_state_all_zero (c : systemdCollector) (u : UnitStatus)
    (h : u.ActiveState ∉ unitStatesName) :
    ((emits (collectUnitStatusMetrics c [u])).all fun m =>
      decide (m.value = 0)) = true := by
  simp only [unitStatesName, List.mem_cons, List.not_mem_nil, or_false,
    not_or] at h
  obtain ⟨h1, h2, h3, h4, h5⟩ := h
  rw [emits_unit_block]
  simp [Ne.symm h1, Ne.symm h2, Ne.symm h3, Ne.symm h4, Ne.symm h5]

/-- Claim C6: emission order is deterministic: the trace and result of
Update are a function of the client responses alone, and the label pairs
of the unit-state samples enumerate the units in client order with, inside
each unit, the states in declared order. -/
theorem C6_deterministic_order (c : systemdCollector) (env env2 : DbusEnv)
    (units : List UnitStatus)
    (h1 : env.newConnUnits = env2.newConnUnits)
    (h2 : env.listUnitsResult = env2.listUnitsResult)
    (h3 : env.newConnState = env2.newConnState)
    (h4 : env.systemStateResult = env2.systemStateResult) :
    Update c env = Update c env2 ∧
    (collectUnitStatusMetrics c units).map (fun e =>
      match e with
      | Event.emit m => m.labelValues
      | _ => []) =
    units.flatMap (fun v =>
      unitStatesName.map fun stateName => [v.Name, stateName]) := by
  constructor
  · have : env = env2 := by
      cases env
      cases env2
      simp_all
    rw [this]
  · induction units with
    | nil => rfl
    | cons v vs ih =>
        rw [collectUnitStatusMetrics_cons, List.map_append, ih]
        simp [collectUnitStatusMetrics, unitStatesName]

/-- Claim C9: on an empty unit list with a successful system-state read,
Update succeeds and emits exactly one sample in total, the system-running
sample; the empty list is not an error. -/
theorem C9_empty_units_single_sample (c : systemdCollector) (env : DbusEnv)
    (s : String)
    (h1 : env.newConnUnits = Except.ok ())
    (h2 : env.listUnitsResult = Except.ok [])
    (h3 : env.newConnState = Except.ok ())
    (h4 : env.systemStateResult = Except.ok s) :
    (Update c env).2.2 = Except.ok () ∧
    emits (Update c env).2.1 = emits (collectSystemState c s) ∧
    (emits (Update c env).2.1).length = 1 ∧
    ((emits (Update c env).2.1).all fun m =>
      decide (m.desc = c.systemRunningDesc ∧ m.labelValues = [])) = true := by
  refine ⟨?_, ?_, ?_, ?_⟩ <;>
    simp [Update, listUnits, getSystemState, h1, h2, h3, h4,
      collectUnitStatusMetrics, collectSystemState, emits]

/-- Claim C10: the unit-state match is exact, case-sensitive string
equality with no trimming: live states differing from a known name only in
case or by surrounding whitespace are outside the known-state set and
yield all five samples valued 0. -/
theorem C10_exact_case_sensitive_match (c : systemdCollector) (n : String) :
    "Active" ∉ unitStatesName ∧ "active " ∉ unitStatesName ∧
    ((emits (collectUnitStatusMetrics c [⟨n, "Active"⟩])).all fun m =>
      decide (m.value = 0)) = true ∧
    ((emits (collectUnitStatusMetrics c [⟨n, "active "⟩])).all fun m =>
      decide (m.value = 0)) = true := by
  refine ⟨by decide, by decide, ?_, ?_⟩ <;> simp [emits_unit_block]

/-- Witness for C1 at a concrete collector, environment and unit. -/
theorem C1_unit_one_hot_witness :
    envOk.newConnUnits = Except.ok () ∧
    envOk.listUnitsResult = Except.ok [sshdUnit, cronUnit] ∧
    sshdUnit ∈ [sshdUnit, cronUnit] ∧
    sshdUnit.ActiveState ∈ unitStatesName ∧
    (collectUnitStatusMetrics cEx [sshdUnit]).length = 5 ∧
    (collectUnitStatusMetrics cEx [sshdUnit]).countP hasValueOne = 1 :=
  ⟨rfl, rfl, by decide, by decide,
    (C1_unit_one_hot cEx envOk [sshdUnit, cronUnit] sshdUnit rfl rfl
      (by decide)).2.2.1,
    (C1_unit_one_hot cEx envOk [sshdUnit, cronUnit] sshdUnit rfl rfl
      (by decide)).2.2.2.2 (by decide)⟩

/-- Witness for C3 at a concrete failing environment. -/
theorem C3_list_failure_no_samples_witness :
    ((∃ e, envListConnFail.newConnUnits = Except.error e) ∨
     (envListConnFail.newConnUnits = Except.ok () ∧
      ∃ e, envListConnFail.listUnitsResult = Except.error e)) ∧
    emits (Update cEx envListConnFail).2.1 = [] ∧
    ∃ msg, (Update cEx envListConnFail).2.2 =
      Except.error ("couldn\x27t get units states: " ++ msg) :=
  ⟨Or.inl ⟨"connection refused", rfl⟩,
    (C3_list_failure_no_samples cEx envListConnFail
      (Or.inl ⟨"connection refused", rfl⟩)).1,
    (C3_list_failure_no_samples cEx envListConnFail
      (Or.inl ⟨"connection refused", rfl⟩)).2⟩

/-- Witness for C4 at a concrete environment whose second connection
open fails after a successful two-unit listing. -/
theorem C4_state_failure_keeps_unit_samples_witness :
    (emits (Update cEx envStateFail).2.1).length = 5 * 2 ∧
    ((emits (Update cEx envStateFail).2.1).all fun m =>
      decide (m.desc = cEx.unitDesc ∧ m.labelValues.length = 2)) = true ∧
    ∃ msg, (Update cEx envStateFail).2.2 =
      Except.error ("couldn\x27t get system state: " ++ msg) :=
  ⟨(C4_state_failure_keeps_unit_samples cEx envStateFail [sshdUnit, cronUnit]
      rfl rfl (Or.inl ⟨"connection refused", rfl⟩)).2.1,
   (C4_state_failure_keeps_unit_samples cEx envStateFail [sshdUnit, cronUnit]
      rfl rfl (Or.inl ⟨"connection refused", rfl⟩)).2.2.1,
   (C4_state_failure_keeps_unit_samples cEx envStateFail [sshdUnit, cronUnit]
      rfl rfl (Or.inl ⟨"connection refused", rfl⟩)).2.2.2⟩

/-- Witness for C5 at a concrete unit in the unknown state reloading. -/
theorem C5_unknown_state_all_zero_witness :
    (("reloading" : String) ∉ unitStatesName) ∧
    ((emits (collectUnitStatusMetrics cEx [⟨"x.service", "reloading"⟩])).all
      fun m => decide (m.value = 0)) = true :=
  ⟨by decide,
    C5_unknown_state_all_zero cEx ⟨"x.service", "reloading"⟩ (by decide)⟩

/-- Witness for C6 at a concrete environment and two-unit list. -/
theorem C6_deterministic_order_witness :
    Update cEx envOk = Update cEx envOk ∧
    (collectUnitStatusMetrics cEx [sshdUnit, cronUnit]).map (fun e =>
      match e with
      | Event.emit m => m.labelValues
      | _ => []) =
    [sshdUnit, cronUnit].flatMap (fun v =>
      unitStatesName.map fun stateName => [v.Name, stateName]) :=
  C6_deterministic_order cEx envOk envOk [sshdUnit, cronUnit] rfl rfl rfl rfl

/-- Witness for C9 at a concrete all-success environment with an empty
unit list. -/
theorem C9_empty_units_single_sample_witness :
    (Update cEx envEmpty).2.2 = Except.ok () ∧
    emits (Update cEx envEmpty).2.1 =
      emits (collectSystemState cEx "\x22running\x22") ∧
    (emits (Update cEx envEmpty).2.1).length = 1 ∧
    ((emits (Update cEx envEmpty).2.1).all fun m =>
      decide (m.desc = cEx.systemRunningDesc ∧ m.labelValues = [])) = true :=
  C9_empty_units_single_sample cEx envEmpty "\x22running\x22" rfl rfl rfl rfl

end NodeExporter.Systemd
